import Mathlib

/-!
Shallow embedding of the server-monitoring bot (alert-bot).

The core of the program lives in `index.js` (shipped inside
`src/docker-entrypoint.sh` in this snapshot) together with `src/config.js`:

* `makeHttpRequest`  — probe with retry loop and linear backoff;
* `checkServerHealth`— builds the new `StatusRecord` for a target from the
  probe outcome and the previously stored record;
* `handleStatusChange` — decides which notifications fire on a transition;
* `performHealthCheck` — one cycle over all targets, producing the
  up/down summary counts;
* `sendWebhookMessage` — best-effort webhook delivery (errors swallowed).

Network and clock behaviour are modelled as explicit environments:
`net : Nat → AttemptOutcome` gives the transport-level outcome of each
probe attempt, `probes : Nat → Option ProbeResult` the per-cycle probe
outcome of a single target, `times : Nat → Nat` the clock.
-/

namespace AlertBot

/-- Transport-level outcome of one probe attempt, with its wall-clock
duration (what a single `axios.get` call does inside `makeHttpRequest`).
A non-network HTTP error status is a `transportSuccess` because the code
passes `validateStatus: () => true`. -/
inductive AttemptOutcome where
  | transportSuccess (status : Nat) (duration : Nat)
  | transportFailure (message : String) (duration : Nat)
deriving DecidableEq, Repr

/-- Result of `makeHttpRequest`: either `{status, responseTime}` on a
transport-level success, or the thrown error's message after all attempts
are exhausted. -/
inductive ProbeResult where
  | ok (status : Nat) (responseTime : Nat)
  | err (message : String)
deriving DecidableEq, Repr

/-- The configuration fields of `src/config.js` that the core logic reads. -/
structure Config where
  requestTimeout : Nat
  retryAttempts : Nat
  retryDelay : Nat
  successStatusCodes : List Nat
  sendRecoveryNotifications : Bool
deriving Repr

/-- The defaults of `src/config.js` when no environment overrides are set. -/
def defaultConfig : Config where
  requestTimeout := 10000
  retryAttempts := 3
  retryDelay := 1000
  successStatusCodes := [200, 201, 202, 204, 301, 302, 304]
  sendRecoveryNotifications := true

/-- Observable behaviour of one `makeHttpRequest` call: the returned value
(`none` models the loop body never running, i.e. the JS function falling
through and returning `undefined`), and the sleeps performed between
attempts, in order. -/
structure ProbeRun where
  result : Option ProbeResult
  delays : List Nat
deriving DecidableEq, Repr

/-- The retry loop of `makeHttpRequest`. `attempt` is the 1-based loop
counter, `elapsed` the wall-clock time accumulated since `startTime`, and
`fuel` the number of loop iterations still allowed (`retryAttempts + 1 -
attempt` at every call). On a transport success the function returns
`Date.now() - startTime`; on a failure of the last attempt it throws; on an
earlier failure it sleeps `retryDelay * attempt` and retries. -/
def runAttempts (cfg : Config) (net : Nat → AttemptOutcome) :
    Nat → Nat → Nat → ProbeRun
  | 0, _, _ => ⟨none, []⟩
  | fuel + 1, attempt, elapsed =>
    match net attempt with
    | .transportSuccess status d => ⟨some (.ok status (elapsed + d)), []⟩
    | .transportFailure msg d =>
      if attempt == cfg.retryAttempts then
        ⟨some (.err ("Request failed after " ++ toString cfg.retryAttempts
          ++ " attempts: " ++ msg)), []⟩
      else
        let rest := runAttempts cfg net fuel (attempt + 1)
          (elapsed + d + cfg.retryDelay * attempt)
        ⟨rest.result, cfg.retryDelay * attempt :: rest.delays⟩

/-- `makeHttpRequest(url)`: up to `retryAttempts` sequential attempts,
starting at attempt 1 with no time elapsed. -/
def makeHttpRequest (cfg : Config) (net : Nat → AttemptOutcome) : ProbeRun :=
  runAttempts cfg net cfg.retryAttempts 1 0

/-- One entry of the `serverStatus` map. Fields the JS object does not
carry (or carries as `null`) are `none`. -/
structure StatusRecord where
  isUp : Bool
  lastCheck : Option Nat
  consecutiveFailures : Nat
  statusCode : Option Nat
  responseTime : Option Nat
  error : Option String
deriving DecidableEq, Repr

/-- The record every target is initialised to in `start()`:
`{ isUp: true, lastCheck: null, consecutiveFailures: 0 }`. -/
def initialRecord : StatusRecord where
  isUp := true
  lastCheck := none
  consecutiveFailures := 0
  statusCode := none
  responseTime := none
  error := none

/-- The initial `serverStatus` store: every configured target maps to
`initialRecord`. -/
def initStore : String → StatusRecord := fun _ => initialRecord

/-- `checkServerHealth(url)` as a state transformer: from the previous
record and the probe outcome (`none` models `makeHttpRequest` returning
`undefined`, whose field access throws and is caught) build the new record.
`now` is the value of `new Date()` for this check. -/
def checkServerHealth (cfg : Config) (prev : StatusRecord)
    (probe : Option ProbeResult) (now : Nat) : StatusRecord :=
  match probe with
  | some (.ok status rt) =>
    let isUp := cfg.successStatusCodes.contains status
    { isUp
      lastCheck := some now
      consecutiveFailures := if isUp then 0 else prev.consecutiveFailures + 1
      statusCode := some status
      responseTime := some rt
      error := none }
  | some (.err msg) =>
    { isUp := false
      lastCheck := some now
      consecutiveFailures := prev.consecutiveFailures + 1
      statusCode := none
      responseTime := none
      error := some msg }
  | none =>
    { isUp := false
      lastCheck := some now
      consecutiveFailures := prev.consecutiveFailures + 1
      statusCode := none
      responseTime := none
      error := some "Cannot read properties of undefined (reading 'status')" }

/-- The up/down classification of a probe outcome: up iff the transport
succeeded and the status code is in the allow-set. This is the `isUp`
value `checkServerHealth` computes, which does not depend on the previous
record. -/
def classifiesUp (cfg : Config) (probe : Option ProbeResult) : Bool :=
  match probe with
  | some (.ok status _) => cfg.successStatusCodes.contains status
  | _ => false

/-- The two alert kinds `handleStatusChange` can emit. -/
inductive Notification where
  | downAlert
  | recoveryAlert
deriving DecidableEq, Repr

/-- `handleStatusChange(url, previousStatus, currentStatus)`: a down alert
when the target was up and is now down; a recovery alert when it was down,
is now up, and recovery notifications are enabled. -/
def handleStatusChange (cfg : Config) (prev curr : StatusRecord) :
    List Notification :=
  (if prev.isUp && !curr.isUp then [.downAlert] else []) ++
    (if !prev.isUp && curr.isUp && cfg.sendRecoveryNotifications then
      [.recoveryAlert] else [])

/-- Outcome of the webhook POST inside `sendWebhookMessage`. -/
inductive DeliveryOutcome where
  | delivered (status : Nat)
  | failedTransport (message : String)
deriving DecidableEq, Repr

/-- `sendWebhookMessage`: logs success iff the POST completed with HTTP
200; every other outcome (non-200 status, transport error) is logged and
swallowed. The returned Bool is only whether the success log line was
printed — nothing is thrown and nothing is retried. -/
def sendWebhookMessage : DeliveryOutcome → Bool
  | .delivered status => status == 200
  | .failedTransport _ => false

/-- One target's full check, including webhook delivery: the new record,
the notifications classified by `handleStatusChange`, and the result of the
one delivery attempt made per notification, given the webhook
environment's outcome `deliver`. -/
def checkServerHealthFull (cfg : Config) (prev : StatusRecord)
    (probe : Option ProbeResult) (now : Nat) (deliver : DeliveryOutcome) :
    StatusRecord × List Notification × List Bool :=
  let curr := checkServerHealth cfg prev probe now
  let notifs := handleStatusChange cfg prev curr
  (curr, notifs, notifs.map fun _ => sendWebhookMessage deliver)

/-- The record a single target's `serverStatus` entry holds after `n`
completed cycles, given the per-cycle probe outcomes and check times. -/
def recAfter (cfg : Config) (probes : Nat → Option ProbeResult)
    (times : Nat → Nat) : Nat → StatusRecord
  | 0 => initialRecord
  | n + 1 => checkServerHealth cfg (recAfter cfg probes times n) (probes n) (times n)

/-- The notifications `handleStatusChange` emits for the target during
cycle `n` (the cycle that replaces the record after `n` cycles by the one
after `n + 1`). -/
def notifsAt (cfg : Config) (probes : Nat → Option ProbeResult)
    (times : Nat → Nat) (n : Nat) : List Notification :=
  handleStatusChange cfg (recAfter cfg probes times n)
    (recAfter cfg probes times (n + 1))

/-- The number of consecutive failure classifications immediately
preceding cycle `n`: 0 right after a success, previous value plus one after
a failure. -/
def trailingFailures (cfg : Config) (probes : Nat → Option ProbeResult) :
    Nat → Nat
  | 0 => 0
  | n + 1 =>
    if classifiesUp cfg (probes n) then 0
    else trailingFailures cfg probes n + 1

/-- One `performHealthCheck` cycle: the new record computed for every
target (every `checkServerHealth` promise fulfills, errors having been
folded into the record). -/
def cycleRecords (cfg : Config) (targets : List String)
    (store : String → StatusRecord) (probes : String → Option ProbeResult)
    (now : Nat) : List (String × StatusRecord) :=
  targets.map fun t => (t, checkServerHealth cfg (store t) (probes t) now)

/-- The `upCount` of the cycle summary: fulfilled results with `isUp`. -/
def cycleUpCount (cfg : Config) (targets : List String)
    (store : String → StatusRecord) (probes : String → Option ProbeResult)
    (now : Nat) : Nat :=
  (cycleRecords cfg targets store probes now).countP fun r => r.2.isUp

/-- The `downCount` of the cycle summary: all other results. -/
def cycleDownCount (cfg : Config) (targets : List String)
    (store : String → StatusRecord) (probes : String → Option ProbeResult)
    (now : Nat) : Nat :=
  (cycleRecords cfg targets store probes now).countP fun r => !r.2.isUp

/-- All notifications emitted during one cycle, tagged with their target. -/
def cycleNotifications (cfg : Config) (targets : List String)
    (store : String → StatusRecord) (probes : String → Option ProbeResult)
    (now : Nat) : List (String × Notification) :=
  (targets.map fun t =>
    (handleStatusChange cfg (store t)
      (checkServerHealth cfg (store t) (probes t) now)).map
        fun a => (t, a)).flatten

/-! ### Basic lemmas about a single check -/

/-- The `isUp` field of the new record is the pure classification of the
probe outcome. -/
lemma checkServerHealth_isUp (cfg : Config) (prev : StatusRecord)
    (probe : Option ProbeResult) (now : Nat) :
    (checkServerHealth cfg prev probe now).isUp = classifiesUp cfg probe := by
  cases probe with
  | none => rfl
  | some r => cases r <;> rfl

/-- The failure counter resets to 0 on an up classification and increments
otherwise. -/
lemma checkServerHealth_consecutiveFailures (cfg : Config)
    (prev : StatusRecord) (probe : Option ProbeResult) (now : Nat) :
    (checkServerHealth cfg prev probe now).consecutiveFailures =
      if classifiesUp cfg probe then 0 else prev.consecutiveFailures + 1 := by
  cases probe with
  | none => rfl
  | some r =>
    cases r with
    | ok status rt =>
      simp only [checkServerHealth, classifiesUp]
    | err msg => rfl

/-- Membership of the down alert in the output of `handleStatusChange`. -/
lemma downAlert_mem_handleStatusChange (cfg : Config)
    (prev curr : StatusRecord) :
    Notification.downAlert ∈ handleStatusChange cfg prev curr ↔
      prev.isUp = true ∧ curr.isUp = false := by
  unfold handleStatusChange
  cases hp : prev.isUp <;> cases hc : curr.isUp <;>
    cases hr : cfg.sendRecoveryNotifications <;> simp

/-- Membership of the recovery alert in the output of
`handleStatusChange`. -/
lemma recoveryAlert_mem_handleStatusChange (cfg : Config)
    (prev curr : StatusRecord) :
    Notification.recoveryAlert ∈ handleStatusChange cfg prev curr ↔
      prev.isUp = false ∧ curr.isUp = true ∧
        cfg.sendRecoveryNotifications = true := by
  unfold handleStatusChange
  cases hp : prev.isUp <;> cases hc : curr.isUp <;>
    cases hr : cfg.sendRecoveryNotifications <;> simp

/-- Unfolding of the per-cycle trace. -/
lemma recAfter_succ (cfg : Config) (probes : Nat → Option ProbeResult)
    (times : Nat → Nat) (n : Nat) :
    recAfter cfg probes times (n + 1) =
      checkServerHealth cfg (recAfter cfg probes times n) (probes n)
        (times n) := rfl

/-! ### C1: classification of `isUp` -/

/-- C1. The new record's `isUp` is true iff the probe finished without a
transport failure and its status code is in the configured allow-set; with
the default allow-set a 404 classifies as down even though the transport
succeeded, and a transport failure (all attempts exhausted) always
classifies as down. -/
theorem isUp_iff_transport_success_and_allowed (cfg : Config)
    (prev : StatusRecord) (probe : Option ProbeResult) (now : Nat) :
    ((checkServerHealth cfg prev probe now).isUp = true ↔
      ∃ status rt, probe = some (.ok status rt) ∧
        cfg.successStatusCodes.contains status = true) ∧
    (∀ rt, (checkServerHealth defaultConfig prev
      (some (.ok 404 rt)) now).isUp = false) ∧
    (∀ msg, (checkServerHealth cfg prev
      (some (.err msg)) now).isUp = false) := by
  refine ⟨?_, fun rt => rfl, fun msg => rfl⟩
  rw [checkServerHealth_isUp]
  cases probe with
  | none => simp [classifiesUp]
  | some r =>
    cases r with
    | ok status rt =>
      simp only [classifiesUp]
      constructor
      · intro h
        exact ⟨status, rt, rfl, h⟩
      · rintro ⟨s, r, heq, hmem⟩
        obtain ⟨rfl, rfl⟩ : status = s ∧ rt = r := by
          simpa using heq
        exact hmem
    | err msg => simp [classifiesUp]

/-! ### C3: `consecutiveFailures` counts trailing failures -/

/-- C3. After `N` completed cycles the stored record's
`consecutiveFailures` (a `Nat`, hence non-negative) equals the number of
consecutive trailing failure classifications ending at cycle `N`: it is 0
whenever the last check classified up and the previous value plus one on
each failure. -/
theorem consecutiveFailures_eq_trailingFailures (cfg : Config)
    (probes : Nat → Option ProbeResult) (times : Nat → Nat) (N : Nat) :
    (recAfter cfg probes times N).consecutiveFailures =
      trailingFailures cfg probes N := by
  induction N with
  | zero => rfl
  | succ n ih =>
    rw [recAfter_succ, checkServerHealth_consecutiveFailures]
    unfold trailingFailures
    by_cases h : classifiesUp cfg (probes n)
    · simp [h]
    · simp [h, ih]

/-! ### C2: notifications fire exactly on transitions -/

/-- The default configuration with recovery notifications disabled
(`SEND_RECOVERY_NOTIFICATIONS=false`). -/
def cfgNoRecovery : Config :=
  { defaultConfig with sendRecoveryNotifications := false }

/-- A probe trace that fails on the first cycle and succeeds with 200 from
the second cycle on. -/
def probesFlap : Nat → Option ProbeResult := fun n =>
  if n = 0 then some (.err "connect ECONNREFUSED") else some (.ok 200 3)

/-- C2 counterexample. With recovery notifications disabled by
configuration, cycle 1 is an up-transition (record down after cycle 1, up
after cycle 2) yet no notification is sent on it, so an up notification is
not sent on every up-transition cycle. -/
theorem upAlert_missing_when_recovery_disabled :
    (recAfter cfgNoRecovery probesFlap (fun _ => 0) 1).isUp = false ∧
    (recAfter cfgNoRecovery probesFlap (fun _ => 0) 2).isUp = true ∧
    notifsAt cfgNoRecovery probesFlap (fun _ => 0) 1 = [] :=
  ⟨rfl, rfl, rfl⟩

/-- C2 amended. A down notification is sent exactly on the down-transition
cycles (previous record up, new record down); when recovery notifications
are enabled, an up notification is sent exactly on the up-transition
cycles. In particular a target that stays down for many cycles triggers
the down notification only on the first down cycle. -/
theorem notifications_iff_transitions (cfg : Config)
    (probes : Nat → Option ProbeResult) (times : Nat → Nat) (n : Nat) :
    (Notification.downAlert ∈ notifsAt cfg probes times n ↔
      (recAfter cfg probes times n).isUp = true ∧
        (recAfter cfg probes times (n + 1)).isUp = false) ∧
    (cfg.sendRecoveryNotifications = true →
      (Notification.recoveryAlert ∈ notifsAt cfg probes times n ↔
        (recAfter cfg probes times n).isUp = false ∧
          (recAfter cfg probes times (n + 1)).isUp = true)) := by
  constructor
  · exact downAlert_mem_handleStatusChange cfg _ _
  · intro h
    unfold notifsAt
    rw [recoveryAlert_mem_handleStatusChange]
    simp [h]

/-- C2 amended, witness: with the default configuration (recovery enabled)
the up-transition at cycle 1 of `probesFlap` does carry the recovery
alert. -/
theorem notifications_iff_transitions_witness :
    Notification.recoveryAlert ∈ notifsAt defaultConfig probesFlap
      (fun _ => 0) 1 :=
  ((notifications_iff_transitions defaultConfig probesFlap
    (fun _ => 0) 1).2 rfl).mpr ⟨rfl, rfl⟩

/-! ### C5: recovery notification policy -/

/-- C5. When recovery notifications are enabled, the recovery alert is
sent exactly on the cycles where the classification changes from down to
up; when they are disabled, it is never sent, whatever transitions
occur. -/
theorem recovery_notification_policy (cfg : Config)
    (probes : Nat → Option ProbeResult) (times : Nat → Nat) (n : Nat) :
    (cfg.sendRecoveryNotifications = true →
      (Notification.recoveryAlert ∈ notifsAt cfg probes times n ↔
        (recAfter cfg probes times n).isUp = false ∧
          (recAfter cfg probes times (n + 1)).isUp = true)) ∧
    (cfg.sendRecoveryNotifications = false →
      Notification.recoveryAlert ∉ notifsAt cfg probes times n) := by
  constructor
  · intro h
    unfold notifsAt
    rw [recoveryAlert_mem_handleStatusChange]
    simp [h]
  · intro h hmem
    unfold notifsAt at hmem
    rw [recoveryAlert_mem_handleStatusChange] at hmem
    simp [h] at hmem

/-- C5 witness: with recovery notifications disabled, the up-transition at
cycle 1 of `probesFlap` sends nothing. -/
theorem recovery_notification_policy_witness :
    Notification.recoveryAlert ∉ notifsAt cfgNoRecovery probesFlap
      (fun _ => 0) 1 :=
  (recovery_notification_policy cfgNoRecovery probesFlap
    (fun _ => 0) 1).2 rfl

/-! ### C6: initial records and first-cycle behaviour -/

/-- A down record is always preceded by a down-transition: the initial
record is up, so a record that is down after `n` cycles pinpoints a first
cycle where the classification flipped from up to down. -/
lemma exists_first_down (cfg : Config) (probes : Nat → Option ProbeResult)
    (times : Nat → Nat) :
    ∀ n, (recAfter cfg probes times n).isUp = false →
      ∃ j, j < n ∧ (recAfter cfg probes times j).isUp = true ∧
        (recAfter cfg probes times (j + 1)).isUp = false := by
  intro n
  induction n with
  | zero =>
    intro h
    simp [recAfter, initialRecord] at h
  | succ m ih =>
    intro h
    cases hb : (recAfter cfg probes times m).isUp with
    | true => exact ⟨m, Nat.lt_succ_self m, hb, h⟩
    | false =>
      obtain ⟨j, hj, h1, h2⟩ := ih hb
      exact ⟨j, Nat.lt_succ_of_lt hj, h1, h2⟩

/-- C6. At startup every configured target gets the one record
`{isUp := true, consecutiveFailures := 0, lastCheck := none}`;
consequently a first check that classifies up sends no notification, a
first check that classifies down sends exactly the down alert, and a
recovery alert at any cycle is preceded by a down alert at an earlier
cycle. -/
theorem init_and_first_cycle (cfg : Config)
    (probes : Nat → Option ProbeResult) (times : Nat → Nat) :
    (∀ t : String, initStore t = initialRecord) ∧
    initialRecord.isUp = true ∧
    initialRecord.consecutiveFailures = 0 ∧
    initialRecord.lastCheck = none ∧
    (classifiesUp cfg (probes 0) = true →
      notifsAt cfg probes times 0 = []) ∧
    (classifiesUp cfg (probes 0) = false →
      notifsAt cfg probes times 0 = [.downAlert]) ∧
    (∀ i, Notification.recoveryAlert ∈ notifsAt cfg probes times i →
      ∃ j, j < i ∧ Notification.downAlert ∈ notifsAt cfg probes times j) := by
  refine ⟨fun t => rfl, rfl, rfl, rfl, ?_, ?_, ?_⟩
  · intro h
    simp [notifsAt, handleStatusChange, recAfter, checkServerHealth_isUp,
      h, initialRecord]
  · intro h
    simp [notifsAt, handleStatusChange, recAfter, checkServerHealth_isUp,
      h, initialRecord]
  · intro i hmem
    have hm := (recoveryAlert_mem_handleStatusChange cfg
      (recAfter cfg probes times i)
      (recAfter cfg probes times (i + 1))).mp hmem
    obtain ⟨j, hj, h1, h2⟩ := exists_first_down cfg probes times i hm.1
    exact ⟨j, hj,
      (downAlert_mem_handleStatusChange cfg _ _).mpr ⟨h1, h2⟩⟩

/-- C6 witness: a failing first check for a concretely given trace sends
exactly the down alert. -/
theorem init_and_first_cycle_witness :
    notifsAt defaultConfig (fun _ => some (.err "boom")) (fun _ => 0) 0 =
      [Notification.downAlert] :=
  (init_and_first_cycle defaultConfig (fun _ => some (.err "boom"))
    (fun _ => 0)).2.2.2.2.2.1 rfl

/-! ### C4 and C10: the retry loop of `makeHttpRequest` -/

/-- Splitting the delay schedule at the first attempt. -/
lemma delays_shift (c a m : Nat) :
    ((List.range (m + 1)).map fun i => c * (a + i)) =
      c * a :: ((List.range m).map fun i => c * (a + 1 + i)) := by
  rw [List.range_succ_eq_map, List.map_cons, List.map_map]
  refine congrArg₂ List.cons (congrArg (c * ·) (Nat.add_zero a)) ?_
  refine List.map_congr_left fun i _ => ?_
  show c * (a + (i + 1)) = c * (a + 1 + i)
  exact congrArg (c * ·) (by omega)

/-- Splitting the accumulated wall-clock time at the first attempt. -/
lemma dursum_shift (durs : Nat → Nat) (c a m : Nat) :
    (((List.range (m + 1)).map fun i => durs i + c * (a + i))).sum =
      (durs 0 + c * a) +
        (((List.range m).map fun i => durs (i + 1) + c * (a + 1 + i))).sum := by
  rw [List.range_succ_eq_map, List.map_cons, List.map_map, List.sum_cons]
  refine congrArg₂ (· + ·) (by rw [Nat.add_zero]) (congrArg List.sum ?_)
  refine List.map_congr_left fun i _ => ?_
  show durs (i + 1) + c * (a + (i + 1)) = durs (i + 1) + c * (a + 1 + i)
  refine congrArg₂ (· + ·) rfl (congrArg (c * ·) (by omega))

/-- Behaviour of the retry loop when the first `m` attempts starting at
`attempt = a` fail at the transport level and attempt `a + m` succeeds:
the loop returns that attempt's status with the full accumulated time, and
sleeps `retryDelay * k` after each failed attempt `k`. -/
lemma runAttempts_ok (cfg : Config) (net : Nat → AttemptOutcome)
    (s d : Nat) :
    ∀ (m : Nat) (msgs : Nat → String) (durs : Nat → Nat)
      (a elapsed fuel : Nat), m < fuel → a + m ≤ cfg.retryAttempts →
      (∀ i, i < m → net (a + i) = .transportFailure (msgs i) (durs i)) →
      net (a + m) = .transportSuccess s d →
      runAttempts cfg net fuel a elapsed =
        ⟨some (.ok s (elapsed +
            (((List.range m).map fun i =>
              durs i + cfg.retryDelay * (a + i))).sum + d)),
          (List.range m).map fun i => cfg.retryDelay * (a + i)⟩ := by
  intro m
  induction m with
  | zero =>
    intro msgs durs a elapsed fuel hfuel hle hfail hsucc
    obtain ⟨f, rfl⟩ : ∃ f, fuel = f + 1 := ⟨fuel - 1, by omega⟩
    rw [Nat.add_zero] at hsucc
    simp [runAttempts, hsucc]
  | succ m ih =>
    intro msgs durs a elapsed fuel hfuel hle hfail hsucc
    obtain ⟨f, rfl⟩ : ∃ f, fuel = f + 1 := ⟨fuel - 1, by omega⟩
    have h0 : net a = .transportFailure (msgs 0) (durs 0) := by
      have h := hfail 0 (Nat.succ_pos m)
      rwa [Nat.add_zero] at h
    have hne : (a == cfg.retryAttempts) = false := by
      have hlt : a < cfg.retryAttempts := by omega
      simp [Nat.ne_of_lt hlt]
    have hrec := ih (fun i => msgs (i + 1)) (fun i => durs (i + 1))
      (a + 1) (elapsed + durs 0 + cfg.retryDelay * a) f
      (by omega) (by omega)
      (fun i hi => by
        have h := hfail (i + 1) (by omega)
        rwa [show a + (i + 1) = a + 1 + i by omega] at h)
      (by rwa [show a + 1 + m = a + (m + 1) by omega])
    simp only [runAttempts, h0, hne, Bool.false_eq_true, if_false]
    rw [hrec, delays_shift, dursum_shift]
    simp only [ProbeRun.mk.injEq, Option.some.injEq, ProbeResult.ok.injEq,
      List.cons.injEq]
    refine ⟨⟨trivial, ?_⟩, trivial⟩
    ring

/-- C4. When the first `m` attempts fail at the transport level and
attempt `m + 1` succeeds (with `m + 1 ≤ retryAttempts`), the probe returns
success with that attempt's status code — later attempts are never
consulted — and the sleeps performed are `retryDelay * k` after failed
attempt `k`, i.e. the delay before attempt `n` (n ≥ 2) is
`retryDelay * (n - 1)` and there is no delay before the first attempt. -/
theorem makeHttpRequest_retry_schedule (cfg : Config)
    (net : Nat → AttemptOutcome) (msgs : Nat → String) (durs : Nat → Nat)
    (s d m : Nat) (hm : m < cfg.retryAttempts)
    (hfail : ∀ i, i < m → net (1 + i) = .transportFailure (msgs i) (durs i))
    (hsucc : net (1 + m) = .transportSuccess s d) :
    makeHttpRequest cfg net =
      ⟨some (.ok s ((((List.range m).map fun i =>
          durs i + cfg.retryDelay * (1 + i))).sum + d)),
        (List.range m).map fun i => cfg.retryDelay * (1 + i)⟩ := by
  unfold makeHttpRequest
  rw [runAttempts_ok cfg net s d m msgs durs 1 0 cfg.retryAttempts hm
    (by omega) hfail hsucc]
  rw [Nat.zero_add]

/-- Transport outcomes for a target that refuses the connection on
attempts 1 and 2 and answers 200 on attempt 3. -/
def net3 : Nat → AttemptOutcome := fun n =>
  if n ≤ 2 then .transportFailure "connect ETIMEDOUT" 4
  else .transportSuccess 200 7

/-- C4 witness: with the default configuration (`retryAttempts = 3`,
`retryDelay = 1000`), two transport failures followed by a success yield
the success result after sleeps of 1000 and 2000 ms. -/
theorem makeHttpRequest_retry_schedule_witness :
    makeHttpRequest defaultConfig net3 =
      ⟨some (.ok 200 3015), [1000, 2000]⟩ := by
  have h := makeHttpRequest_retry_schedule defaultConfig net3
    (fun _ => "connect ETIMEDOUT") (fun _ => 4) 200 7 2
    (by decide)
    (by intro i hi; interval_cases i <;> rfl)
    (by rfl)
  rw [h]
  rfl

/-- Distributing a list sum over a pointwise sum of functions. -/
lemma sum_map_add (l : List Nat) (f g : Nat → Nat) :
    ((l.map fun i => f i + g i)).sum = (l.map f).sum + (l.map g).sum := by
  induction l with
  | nil => rfl
  | cons x xs ih =>
    simp only [List.map_cons, List.sum_cons, ih]
    ring

/-- C10. The `responseTime` returned by a probe that succeeds on attempt
`m + 1` is measured from the start of the first attempt: it is the sum of
the durations of the `m` failed attempts, plus all inter-attempt retry
delays, plus the successful attempt's own duration. -/
theorem responseTime_includes_retries (cfg : Config)
    (net : Nat → AttemptOutcome) (msgs : Nat → String) (durs : Nat → Nat)
    (s d m : Nat) (hm : m < cfg.retryAttempts)
    (hfail : ∀ i, i < m → net (1 + i) = .transportFailure (msgs i) (durs i))
    (hsucc : net (1 + m) = .transportSuccess s d) :
    ∃ rt, (makeHttpRequest cfg net).result = some (.ok s rt) ∧
      rt = ((List.range m).map durs).sum +
        ((makeHttpRequest cfg net).delays).sum + d := by
  unfold makeHttpRequest
  rw [runAttempts_ok cfg net s d m msgs durs 1 0 cfg.retryAttempts hm
    (by omega) hfail hsucc]
  refine ⟨_, rfl, ?_⟩
  show 0 + (((List.range m).map fun i =>
      durs i + cfg.retryDelay * (1 + i))).sum + d =
    ((List.range m).map durs).sum +
      (((List.range m).map fun i => cfg.retryDelay * (1 + i))).sum + d
  rw [sum_map_add, Nat.zero_add]

/-- C10 witness: for `net3` the reported response time 3015 is the two
failed durations (4 + 4), the delays (1000 + 2000), and the successful
attempt's 7 ms. -/
theorem responseTime_includes_retries_witness :
    ∃ rt, (makeHttpRequest defaultConfig net3).result = some (.ok 200 rt) ∧
      rt = ((List.range 2).map fun _ => 4).sum +
        ((makeHttpRequest defaultConfig net3).delays).sum + 7 :=
  responseTime_includes_retries defaultConfig net3
    (fun _ => "connect ETIMEDOUT") (fun _ => 4) 200 7 2
    (by decide)
    (by intro i hi; interval_cases i <;> rfl)
    (by rfl)

/-! ### C7: cycle summary and per-target isolation -/

/-- Every element of a list is counted either by a predicate or by its
negation. -/
lemma countP_add_countP_not {α : Type} (l : List α) (p : α → Bool) :
    l.countP p + l.countP (fun a => !p a) = l.length := by
  induction l with
  | nil => rfl
  | cons x xs ih =>
    rw [List.countP_cons, List.countP_cons, List.length_cons]
    cases p x <;> simp <;> omega

/-- The configuration of the end-to-end scenario: two retry attempts. -/
def cfgTwoAttempts : Config := { defaultConfig with retryAttempts := 2 }

/-- The target list of the end-to-end scenario. -/
def e2eTargets : List String :=
  ["https://good.example", "https://bad.example"]

/-- Probe outcomes of the end-to-end scenario: the good target answers
200, the bad target's probe is `makeHttpRequest` against a host that
always times out (so both attempts fail and the error is surfaced). -/
def e2eProbes : String → Option ProbeResult := fun t =>
  if t = "https://good.example" then some (.ok 200 35)
  else (makeHttpRequest cfgTwoAttempts fun _ =>
    .transportFailure "timeout of 10000ms exceeded" 10000).result

/-- Same scenario with the bad target's probe replaced, for showing that
one target's outcome does not influence another's record. -/
def e2eProbesAlt : String → Option ProbeResult := fun t =>
  if t = "https://good.example" then some (.ok 200 35)
  else some (.ok 500 12)

/-- C7. Every cycle fulfills one result per target (failures are folded
into records, never thrown), so `upCount + downCount` equals the number of
configured targets and `upCount` counts exactly the targets classified up;
a target's new record depends only on its own previous record and its own
probe outcome; and the end-to-end scenario (good target up, bad target
always timing out under two attempts) reports one up, one down, and
exactly one down alert, for the bad target. -/
theorem cycle_summary_counts (cfg : Config) (targets : List String)
    (store : String → StatusRecord) (probes : String → Option ProbeResult)
    (now : Nat) :
    (cycleUpCount cfg targets store probes now +
      cycleDownCount cfg targets store probes now = targets.length) ∧
    (cycleUpCount cfg targets store probes now =
      targets.countP fun t => classifiesUp cfg (probes t)) ∧
    (∀ (store2 : String → StatusRecord)
      (probes2 : String → Option ProbeResult) (t : String),
      store t = store2 t → probes t = probes2 t →
      (cycleRecords cfg targets store probes now).lookup t =
        (cycleRecords cfg targets store2 probes2 now).lookup t) ∧
    (cycleUpCount defaultConfig e2eTargets initStore e2eProbes 0 = 1 ∧
      cycleDownCount defaultConfig e2eTargets initStore e2eProbes 0 = 1 ∧
      cycleNotifications defaultConfig e2eTargets initStore e2eProbes 0 =
        [("https://bad.example", .downAlert)]) := by
  refine ⟨?_, ?_, ?_, by decide⟩
  · have h := countP_add_countP_not
      (cycleRecords cfg targets store probes now) (fun r => r.2.isUp)
    unfold cycleUpCount cycleDownCount
    rw [h]
    unfold cycleRecords
    rw [List.length_map]
  · unfold cycleUpCount cycleRecords
    rw [List.countP_map]
    refine List.countP_congr fun t _ => ?_
    show (checkServerHealth cfg (store t) (probes t) now).isUp = true ↔
      classifiesUp cfg (probes t) = true
    rw [checkServerHealth_isUp]
  · intro store2 probes2 t hs hp
    induction targets with
    | nil => rfl
    | cons u us ih =>
      unfold cycleRecords
      rw [List.map_cons, List.map_cons, List.lookup_cons, List.lookup_cons]
      cases hu : t == u with
      | true =>
        have hut : t = u := eq_of_beq hu
        subst hut
        rw [hs, hp]
      | false => exact ih

/-- C7 witness: replacing the bad target's probe outcome leaves the good
target's looked-up record unchanged. -/
theorem cycle_summary_counts_witness :
    (cycleRecords defaultConfig e2eTargets initStore e2eProbes 0).lookup
        "https://good.example" =
      (cycleRecords defaultConfig e2eTargets initStore e2eProbesAlt 0).lookup
        "https://good.example" :=
  (cycle_summary_counts defaultConfig e2eTargets initStore e2eProbes
    0).2.2.1 initStore e2eProbesAlt "https://good.example" rfl (by decide)

/-! ### C8: webhook delivery failures are isolated -/

/-- C8. The record written for the cycle and the transition
classification are the same whatever the webhook delivery outcome is
(success, non-200 response, or transport error — all swallowed by
`sendWebhookMessage`), exactly one delivery attempt is made per
notification (no retry), and the record written is exactly the one
`checkServerHealth` computes from the probe alone. -/
theorem webhook_failure_isolated (cfg : Config) (prev : StatusRecord)
    (probe : Option ProbeResult) (now : Nat) (d1 d2 : DeliveryOutcome) :
    ((checkServerHealthFull cfg prev probe now d1).1 =
      (checkServerHealthFull cfg prev probe now d2).1) ∧
    ((checkServerHealthFull cfg prev probe now d1).2.1 =
      (checkServerHealthFull cfg prev probe now d2).2.1) ∧
    ((checkServerHealthFull cfg prev probe now d1).2.2.length =
      (checkServerHealthFull cfg prev probe now d1).2.1.length) ∧
    ((checkServerHealthFull cfg prev probe now d1).1 =
      checkServerHealth cfg prev probe now) := by
  refine ⟨rfl, rfl, ?_, rfl⟩
  simp [checkServerHealthFull]

/-! ### C9: which fields a record carries -/

/-- C9 counterexample. A transport-successful probe answering 404 yields a
record with `isUp = false` that nevertheless carries a status code and a
response time and whose `error` field is null. -/
theorem statusCode_present_on_down_record :
    (checkServerHealth defaultConfig initialRecord
        (some (.ok 404 7)) 5).isUp = false ∧
    (checkServerHealth defaultConfig initialRecord
        (some (.ok 404 7)) 5).statusCode = some 404 ∧
    (checkServerHealth defaultConfig initialRecord
        (some (.ok 404 7)) 5).responseTime = some 7 ∧
    (checkServerHealth defaultConfig initialRecord
        (some (.ok 404 7)) 5).error = none :=
  ⟨rfl, rfl, rfl, rfl⟩

/-- C9 amended. `statusCode` and `responseTime` are present exactly when
the probe succeeded at the transport level, and `error` is non-null
exactly when it did not; `isUp = true` still implies status code and
response time present with no error, but an `isUp = false` record from a
disallowed status code carries them too, with `error` null. -/
theorem record_field_presence (cfg : Config) (prev : StatusRecord)
    (probe : Option ProbeResult) (now : Nat) :
    ((checkServerHealth cfg prev probe now).statusCode.isSome = true ↔
      ∃ s rt, probe = some (.ok s rt)) ∧
    ((checkServerHealth cfg prev probe now).responseTime.isSome = true ↔
      ∃ s rt, probe = some (.ok s rt)) ∧
    ((checkServerHealth cfg prev probe now).error = none ↔
      ∃ s rt, probe = some (.ok s rt)) ∧
    ((checkServerHealth cfg prev probe now).isUp = true →
      (checkServerHealth cfg prev probe now).statusCode.isSome = true ∧
      (checkServerHealth cfg prev probe now).responseTime.isSome = true ∧
      (checkServerHealth cfg prev probe now).error = none) := by
  cases probe with
  | none => simp [checkServerHealth]
  | some r =>
    cases r with
    | ok status rt => simp [checkServerHealth]
    | err msg => simp [checkServerHealth]

/-- C9 amended, witness: an up record from a 200 answer carries status
code and response time and no error. -/
theorem record_field_presence_witness :
    (checkServerHealth defaultConfig initialRecord
        (some (.ok 200 9)) 1).statusCode.isSome = true ∧
    (checkServerHealth defaultConfig initialRecord
        (some (.ok 200 9)) 1).responseTime.isSome = true ∧
    (checkServerHealth defaultConfig initialRecord
        (some (.ok 200 9)) 1).error = none :=
  (record_field_presence defaultConfig initialRecord
    (some (.ok 200 9)) 1).2.2.2 rfl

end AlertBot
